import Mathlib

/-!
Verification of the Overseerr Alexa skill request pipeline
(`src/lambda_function.py`) via a shallow embedding in Lean 4.

The embedding models the typed data flowing through `lambda_handler`:
the Alexa event (intent slots), the three HTTP calls (search, detail,
request submission) as oracle values supplied by a `World`, the pure
request-payload construction (lines 113-137 of the source), and the
spoken-text response envelope built by `build_response`.

Python-specific behaviour is modelled explicitly:
* `max()` over an empty generator raises `ValueError` (line 133 when
  every season number is 0), so the payload builder returns `Except`.
* Truthiness: `if tvdbId and isinstance(tvdbId, (int, float))` skips a
  numeric zero because `0` is falsy (line 121).
* `except requests.exceptions.RequestException` (line 163) catches only
  requests exceptions; other exceptions raised inside the `try` block
  propagate out of the handler.
* In the except branch, `e.response.text` (line 168) raises
  `AttributeError` when the caught exception carries no response
  (`e.response is None`, as for pure connection errors), since
  `hasattr(e, 'response')` is true for every `RequestException`.
* `urllib.parse.quote` (line 73) is applied to the title and the result
  is then passed through the query-parameter encoding of `requests`
  (`urllib.parse.urlencode` with `quote_plus`), so the transmitted
  `query` value is percent-encoded twice.  Characters are modelled at
  the ASCII level (one byte per character), which covers the inputs
  considered here.
Floats are modelled as rationals (no NaN/Inf), and `int()` truncation
toward zero is modelled on rationals.
-/

/-- Media type of a search result / detail object; the spec
`enum(movie, tv)` (`selected_item['mediaType']`). -/
inductive MediaType where
  | movie
  | tv
deriving DecidableEq, Repr

/-- One entry of `detail_data['seasons']`: an object carrying
`seasonNumber`. -/
structure Season where
  seasonNumber : Int
deriving DecidableEq, Repr

/-- A JSON-typed value found at `externalIds.tvdbId`: an integer, a
float (modelled as a rational), or a string. -/
inductive TvdbVal where
  | vint (n : Int)
  | vfloat (q : Rat)
  | vstr (s : String)
deriving DecidableEq, Repr

/-- Python truthiness of a `TvdbVal` (`if tvdbId and ...`): zero numbers
and the empty string are falsy. -/
def pyTruthy : TvdbVal → Bool
  | .vint n => n != 0
  | .vfloat q => q != 0
  | .vstr s => s != ""

/-- `isinstance(tvdbId, (int, float))`. -/
def isNumeric : TvdbVal → Bool
  | .vint _ => true
  | .vfloat _ => true
  | .vstr _ => false

/-- Python `int()` truncation toward zero on a rational. -/
def truncToInt (q : Rat) : Int :=
  if 0 ≤ q then ⌊q⌋ else ⌈q⌉

/-- Python `int(tvdbId)` for the two numeric shapes (only reached under
the `isinstance` guard; the string case is never used). -/
def pyIntOf : TvdbVal → Int
  | .vint n => n
  | .vfloat q => truncToInt q
  | .vstr _ => 0

/-- `detail_data['externalIds']` (missing keys modelled as `none`;
a missing `externalIds` object behaves as both fields missing, matching
`detail_data.get('externalIds', ...)`). -/
structure ExternalIds where
  imdbId : Option String
  tvdbId : Option TvdbVal
deriving DecidableEq, Repr

/-- The parsed body of the detail response (`detail_data`): `id`,
`externalIds`, `seasons` (missing list modelled as `[]`, matching
`detail_data.get('seasons', [])`), and the two possible title keys. -/
structure DetailData where
  id : Int
  externalIds : ExternalIds
  seasons : List Season
  name : Option String
  title : Option String
deriving DecidableEq, Repr

/-- The `seasons` field of the built payload: either a JSON list of
season numbers or the string sentinel `"all"` (line 137). -/
inductive SeasonsField where
  | seasonList (l : List Int)
  | sentinelAll
deriving DecidableEq, Repr

/-- The request payload built in lines 113-137 (`request_data`).
`tvdbId` and `seasons` are `Option` because the corresponding JSON keys
are only conditionally added. -/
structure RequestPayload where
  mediaType : MediaType
  mediaId : Int
  imdbId : Option String
  tvdbId : Option Int
  seasons : Option SeasonsField
deriving DecidableEq, Repr

/-- Exceptions that can escape the payload construction or the handler
body without being caught by `except requests.exceptions.RequestException`. -/
inductive PyError where
  | valueError
  | attributeError
deriving DecidableEq, Repr

/-- The season numbers of the detail with season 0 removed: the list
comprehension of line 130 and the generator of line 133. -/
def nonzeroSeasonNumbers (detail_data : DetailData) : List Int :=
  (detail_data.seasons.map Season.seasonNumber).filter (fun n => n != 0)

/-- The tvdbId field of the payload: lines 119-122.  The value is added
only when it is truthy and an `int`/`float` instance, coerced with
`int(...)`. -/
def tvdbIdField (detail_data : DetailData) : Option Int :=
  match detail_data.externalIds.tvdbId with
  | none => none
  | some v => if pyTruthy v && isNumeric v then some (pyIntOf v) else none

/-- Lines 113-137 of `lambda_handler` as a pure function: build
`request_data` from the media type selected from the search result, the
detail body, and the all-seasons flag.  Returns `Except` because line
133 raises `ValueError` when the non-zero season generator is empty
(`max()` of an empty sequence). -/
def buildRequestData (media_type : MediaType) (detail_data : DetailData)
    (request_all_seasons : Bool) : Except PyError RequestPayload :=
  let base : RequestPayload :=
    { mediaType := media_type
      mediaId := detail_data.id
      imdbId := detail_data.externalIds.imdbId
      tvdbId := tvdbIdField detail_data
      seasons := none }
  match media_type with
  | .movie => .ok base
  | .tv =>
    match detail_data.seasons with
    | [] => .ok { base with seasons := some .sentinelAll }
    | _ :: _ =>
      if request_all_seasons then
        .ok { base with seasons := some (.seasonList (nonzeroSeasonNumbers detail_data)) }
      else
        match (nonzeroSeasonNumbers detail_data).max? with
        | some latest_season => .ok { base with seasons := some (.seasonList [latest_season]) }
        | none => .error .valueError

/-- An intent slot object; `value` is `none` when the slot object has no
`value` key. -/
structure SlotVal where
  value : Option String
deriving DecidableEq, Repr

/-- `event['request']['intent']`: a dictionary of named slots, modelled
as an association list (a missing `slots` key behaves as `[]`, matching
`intent.get('slots', ...)`). -/
structure Intent where
  slots : List (String × SlotVal)
deriving DecidableEq, Repr

/-- The parts of the Alexa event the handler reads: the userId (used
only for logging), the request type, and the intent. -/
structure Event where
  userId : String
  requestType : String
  intent : Intent
deriving DecidableEq, Repr

/-- `slots.get(key, ...).get('value', ...)`: the value of a slot
when both the slot and its `value` key are present. -/
def slotValue (slots : List (String × SlotVal)) (key : String) : Option String :=
  match slots.lookup key with
  | none => none
  | some sl => sl.value

/-- ASCII lower-casing of one character, the fragment of Python
`str.lower()` relevant here. -/
def lowerChar (c : Char) : Char :=
  if 65 ≤ c.toNat ∧ c.toNat ≤ 90 then Char.ofNat (c.toNat + 32) else c

/-- Python `str.lower()` on ASCII input. -/
def pyLower (s : String) : String :=
  ⟨s.data.map lowerChar⟩

/-- Line 68: `slots.get('all', ...).get('value', 'false').lower() == 'true'`.
A missing slot or a missing value falls back to the string `"false"`. -/
def allSeasonsFlag (slots : List (String × SlotVal)) : Bool :=
  pyLower ((slotValue slots "all").getD "false") == "true"

/-- One item of `search_data['results']`.  The title key (`name` for tv,
`title` for movies) is read only by a debug log line and is therefore
not modelled. -/
structure SearchItem where
  id : Int
  mediaType : MediaType
deriving DecidableEq, Repr

/-- The parsed body of the search response (`search_data`). -/
structure SearchData where
  results : List SearchItem
deriving DecidableEq, Repr

/-- Outcome of one `requests` call: either the call itself raised a
`RequestException` (connection error and the like, carrying no
response) or it returned a response with a status code, a typed JSON
body and a raw text. -/
inductive HttpResult (α : Type) where
  | fail (msg : String)
  | success (status : Nat) (body : α) (text : String)
deriving DecidableEq, Repr

/-- A caught `requests.exceptions.RequestException`: its message and
`e.response.text` when a response is attached (`e.response` is `None`
otherwise). -/
structure ReqExc where
  msg : String
  responseText : Option String
deriving DecidableEq, Repr

/-- `resp.raise_for_status()` followed by `resp.json()`: a status of 400
or above raises an `HTTPError` carrying the response text; a failed
call raises with no response attached. -/
def getJson {α : Type} : HttpResult α → Except ReqExc α
  | .fail m => .error ⟨m, none⟩
  | .success status body text =>
    if 400 ≤ status then .error ⟨"HTTPError", some text⟩ else .ok body

/-- `raise_for_status()` on the POST response, keeping the status code
for the 201 check of line 151. -/
def postStatus : HttpResult Unit → Except ReqExc Nat
  | .fail m => .error ⟨m, none⟩
  | .success status _ text =>
    if 400 ≤ status then .error ⟨"HTTPError", some text⟩ else .ok status

/-- The oracle for the three HTTP calls the handler makes, in order:
the search GET, the detail GET, and the request POST. -/
structure World where
  search : HttpResult SearchData
  detail : HttpResult DetailData
  post : HttpResult Unit

/-- The Alexa response envelope built by `build_response` (lines
171-181). -/
structure AlexaResponse where
  version : String
  outputSpeechType : String
  text : String
  shouldEndSession : Bool
deriving DecidableEq, Repr

/-- `build_response(output)`. -/
def build_response (output : String) : AlexaResponse :=
  { version := "1.0", outputSpeechType := "PlainText",
    text := output, shouldEndSession := true }

/-- How a Python f-string renders an optional string: `None` prints as
the text `None`. -/
def fstrOpt : Option String → String
  | some s => s
  | none => "None"

/-- Lines 163-169: the `except requests.exceptions.RequestException`
branch.  `hasattr(e, 'response')` is true for every `RequestException`
(the attribute is set to `None` when no response is attached), so
`e.response.text` raises `AttributeError` when `e.response` is `None`;
otherwise the handler speaks the message with the server response text
appended. -/
def handleCaught (e : ReqExc) : Except PyError AlexaResponse :=
  match e.responseText with
  | some t =>
    .ok (build_response ("An error occurred: " ++ e.msg ++ " Server response: " ++ t))
  | none => .error .attributeError

/-- `lambda_handler(event, context)` (lines 55-169) over a `World`
supplying the three HTTP outcomes.  Returns `.error` exactly when an
exception escapes the handler uncaught; `.ok` carries the Alexa
response envelope. -/
def lambda_handler (event : Event) (w : World) : Except PyError AlexaResponse :=
  if event.requestType != "IntentRequest" then
    .ok (build_response ("I\x27m sorry, I can only handle intent requests."))
  else
    let slots := event.intent.slots
    let media_title := (slotValue slots "MediaTitle").getD ""
    let request_all_seasons := allSeasonsFlag slots
    if media_title == "" then
      .ok (build_response ("Please provide the title of the movie or TV show."))
    else
      match getJson w.search with
      | .error e => handleCaught e
      | .ok search_data =>
        match search_data.results with
        | [] =>
          .ok (build_response ("I\x27m sorry, but I couldn\x27t find any media matching \x27" ++ media_title ++ "\x27."))
        | selected_item :: _ =>
          let media_type := selected_item.mediaType
          match getJson w.detail with
          | .error e => handleCaught e
          | .ok detail_data =>
            match buildRequestData media_type detail_data request_all_seasons with
            | .error pe => .error pe
            | .ok _request_data =>
              match postStatus w.post with
              | .error e => handleCaught e
              | .ok status =>
                let title := fstrOpt
                  (if media_type == .tv then detail_data.name else detail_data.title)
                if status == 201 then
                  match media_type with
                  | .tv =>
                    if request_all_seasons then
                      .ok (build_response ("I have successfully added all seasons of \x27" ++ title ++ "\x27 to your requests."))
                    else
                      .ok (build_response ("I have successfully added the latest season of \x27" ++ title ++ "\x27 to your requests."))
                  | .movie =>
                    .ok (build_response ("I have successfully added \x27" ++ title ++ "\x27 to your requests."))
                else
                  .ok (build_response ("I couldn\x27t add your request. Please check the details and try again."))

/-- Upper-case hexadecimal digit, as produced by `urllib.parse.quote`. -/
def hexUpper (n : Nat) : Char :=
  if n < 10 then Char.ofNat (48 + n) else Char.ofNat (55 + n)

/-- Percent-encode one ASCII character as a percent sign followed by
two hex digits. -/
def pctEncode (c : Char) : List Char :=
  ['%', hexUpper (c.toNat / 16), hexUpper (c.toNat % 16)]

/-- Characters `urllib.parse.quote` leaves untouched with its default
`safe` value: ASCII alphanumerics, `_ . - ~`, and `/`. -/
def quoteSafe (c : Char) : Bool :=
  c.isAlphanum || c == '_' || c == '.' || c == '-' || c == '~' || c == '/'

/-- Line 73: `urllib.parse.quote(media_title)` on ASCII input. -/
def pyQuote (s : String) : String :=
  ⟨(s.data.map (fun c => if quoteSafe c then [c] else pctEncode c)).flatten⟩

/-- Characters `urllib.parse.quote_plus` leaves untouched: ASCII
alphanumerics and `_ . - ~` (`/` is encoded, space becomes `+`). -/
def plusSafe (c : Char) : Bool :=
  c.isAlphanum || c == '_' || c == '.' || c == '-' || c == '~'

/-- `urllib.parse.quote_plus` on ASCII input: the encoding `requests`
applies to each query-parameter value via `urllib.parse.urlencode`. -/
def quotePlus (s : String) : String :=
  ⟨(s.data.map (fun c =>
      if c == ' ' then ['+'] else if plusSafe c then [c] else pctEncode c)).flatten⟩

/-- The `query` parameter value actually transmitted by the search GET
of line 91: `requests` re-encodes the already-quoted `encoded_query` of
line 73 when serialising `search_params`. -/
def transmittedSearchQuery (media_title : String) : String :=
  quotePlus (pyQuote media_title)

/-- The full query string of the search GET: `search_params` of lines
84-88 serialised by `requests` (`page` is the integer 1, rendered by
`str`). -/
def searchQueryString (media_title : String) : String :=
  "query=" ++ transmittedSearchQuery media_title ++
    "&page=" ++ quotePlus "1" ++ "&language=" ++ quotePlus "en"

/-- C1 counterexample input: a TV detail whose only season is number 0. -/
def c1detail0 : DetailData :=
  { id := 42, externalIds := { imdbId := none, tvdbId := none },
    seasons := [⟨0⟩], name := some "Specials", title := none }

/-- C1 witness input: a TV detail with seasons 0, 1 and 5. -/
def c1detail : DetailData :=
  { id := 42, externalIds := { imdbId := some "tt0000001", tvdbId := none },
    seasons := [⟨0⟩, ⟨1⟩, ⟨5⟩], name := some "The Example", title := none }

/-- C2 counterexample input: a TV detail whose seasons are all number 0. -/
def c2detail0 : DetailData :=
  { id := 7, externalIds := { imdbId := some "tt0000002", tvdbId := none },
    seasons := [⟨0⟩, ⟨0⟩], name := some "Extras", title := none }

/-- C3 witness input: a TV detail with seasons 0, 1 and 2. -/
def c3detail : DetailData :=
  { id := 99, externalIds := { imdbId := none, tvdbId := some (.vint 305288) },
    seasons := [⟨0⟩, ⟨1⟩, ⟨2⟩], name := some "The Wire", title := none }

/-- C4 witness input: a TV detail with no season metadata at all. -/
def c4detail : DetailData :=
  { id := 11, externalIds := { imdbId := none, tvdbId := none },
    seasons := [], name := some "Bare", title := none }

/-- C6 counterexample input: a detail whose tvdbId is the integer 0. -/
def c6zero : DetailData :=
  { id := 5, externalIds := { imdbId := none, tvdbId := some (.vint 0) },
    seasons := [], name := none, title := some "Zero" }

/-- C6 witness input: a detail whose tvdbId is the integer 12345. -/
def c6detail : DetailData :=
  { id := 6, externalIds := { imdbId := some "tt0000006", tvdbId := some (.vint 12345) },
    seasons := [], name := none, title := some "Six" }

/-- The payload the code builds for `c6detail` as a movie. -/
def c6payload : RequestPayload :=
  { mediaType := .movie, mediaId := 6, imdbId := some "tt0000006",
    tvdbId := some 12345, seasons := none }

/-- C7 counterexample event: a well-formed IntentRequest asking for the
latest season. -/
def c7event : Event :=
  { userId := "amzn1.ask.account.TEST", requestType := "IntentRequest",
    intent := { slots := [("MediaTitle", ⟨some "Doctor Who"⟩), ("all", ⟨some "false"⟩)] } }

/-- C7 counterexample world: every HTTP call succeeds, but the detail
body has only season 0. -/
def c7world : World :=
  { search := .success 200 { results := [{ id := 1, mediaType := .tv }] } "searchbody",
    detail := .success 200
      { id := 1, externalIds := { imdbId := none, tvdbId := none },
        seasons := [⟨0⟩], name := some "Doctor Who", title := none } "detailbody",
    post := .success 201 () "postbody" }

/-- C7 witness event. -/
def c7okEvent : Event :=
  { userId := "amzn1.ask.account.TEST2", requestType := "IntentRequest",
    intent := { slots := [("MediaTitle", ⟨some "The Wire"⟩), ("all", ⟨some "true"⟩)] } }

/-- C7 witness world: the detail fetch fails with HTTP 500, which the
boundary converts to a spoken response. -/
def c7okWorld : World :=
  { search := .success 200 { results := [{ id := 99, mediaType := .tv }] } "searchok",
    detail := .success 500
      { id := 99, externalIds := { imdbId := none, tvdbId := none },
        seasons := [], name := some "The Wire", title := none } "internal error",
    post := .success 201 () "created" }

/-- C8 witness event: a movie request. -/
def c8event : Event :=
  { userId := "amzn1.ask.account.TEST3", requestType := "IntentRequest",
    intent := { slots := [("MediaTitle", ⟨some "Dune"⟩)] } }

/-- C8 witness search body. -/
def c8sd : SearchData := { results := [{ id := 3, mediaType := .movie }] }

/-- C8 witness detail body. -/
def c8dd : DetailData :=
  { id := 3, externalIds := { imdbId := none, tvdbId := none },
    seasons := [], name := none, title := some "Dune" }

/-- C8 witness world: the POST returns 200 instead of 201, with a raw
upstream body. -/
def c8world : World :=
  { search := .success 200 c8sd "searchok",
    detail := .success 200 c8dd "detailok",
    post := .success 200 () "upstream raw body" }

/-- C8 witness payload. -/
def c8p : RequestPayload :=
  { mediaType := .movie, mediaId := 3, imdbId := none, tvdbId := none,
    seasons := none }

example :
    buildRequestData .tv
      { id := 1, externalIds := { imdbId := none, tvdbId := none },
        seasons := [⟨0⟩, ⟨1⟩, ⟨2⟩], name := some "x", title := none } false
    = .ok { mediaType := .tv, mediaId := 1, imdbId := none, tvdbId := none,
            seasons := some (.seasonList [2]) } := rfl

example :
    buildRequestData .tv
      { id := 1, externalIds := { imdbId := none, tvdbId := none },
        seasons := [⟨0⟩], name := none, title := none } false
    = .error .valueError := rfl

example : pyQuote ("The Wire") = "The%20Wire" := rfl
example : transmittedSearchQuery ("The Wire") = "The%2520Wire" := rfl
example : searchQueryString ("en") = "query=en&page=1&language=en" := rfl
example : allSeasonsFlag [("all", ⟨some "TRUE"⟩)] = true := by decide
example : allSeasonsFlag [("all", ⟨none⟩)] = false := by decide
example : allSeasonsFlag [] = false := by decide

/-- A non-empty list of integers has a `max?` that is a greatest
element. -/
theorem listMaxSpec {l : List Int} (h : l ≠ []) :
    ∃ m, l.max? = some m ∧ m ∈ l ∧ ∀ x ∈ l, x ≤ m := by
  cases hl : l.max? with
  | none => exact absurd (List.max?_eq_none_iff.mp hl) h
  | some m =>
    refine ⟨m, rfl, List.max?_mem (fun a b => max_choice a b) hl, fun x hx => ?_⟩
    exact (List.max?_le_iff (fun _ _ _ => max_le_iff) hl).mp le_rfl x hx

/-- The payload construction succeeds exactly unless it reaches the
`max()` of line 133 with an empty generator: media type tv, latest-only
request, a non-empty season list all of whose season numbers are 0. -/
theorem build_ok_iff (media_type : MediaType) (detail_data : DetailData)
    (request_all_seasons : Bool) :
    (∃ p, buildRequestData media_type detail_data request_all_seasons = .ok p) ↔
      ¬(media_type = .tv ∧ request_all_seasons = false ∧
        detail_data.seasons ≠ [] ∧ nonzeroSeasonNumbers detail_data = []) := by
  cases media_type with
  | movie => simp [buildRequestData]
  | tv =>
    cases hs : detail_data.seasons with
    | nil => simp [buildRequestData, hs]
    | cons a as =>
      cases request_all_seasons with
      | true => simp [buildRequestData, hs]
      | false =>
        cases hm : (nonzeroSeasonNumbers detail_data).max? with
        | none =>
          simp only [buildRequestData, hs, hm, Bool.false_eq_true, if_false]
          simp [List.max?_eq_none_iff.mp hm, hs]
        | some m =>
          simp only [buildRequestData, hs, hm, Bool.false_eq_true, if_false]
          have : nonzeroSeasonNumbers detail_data ≠ [] := by
            intro hnil
            rw [hnil] at hm
            exact Option.noConfusion hm
          simp [this, hs]

/-- Whenever the payload construction succeeds, its tvdbId field is the
one computed at lines 119-122, regardless of the branch taken for
seasons. -/
theorem build_tvdbId (media_type : MediaType) (detail_data : DetailData)
    (request_all_seasons : Bool) (p : RequestPayload)
    (h : buildRequestData media_type detail_data request_all_seasons = .ok p) :
    p.tvdbId = tvdbIdField detail_data := by
  cases media_type with
  | movie =>
    simp only [buildRequestData] at h
    cases h
    rfl
  | tv =>
    cases hs : detail_data.seasons with
    | nil =>
      simp only [buildRequestData, hs] at h
      cases h
      rfl
    | cons a as =>
      cases request_all_seasons with
      | true =>
        simp only [buildRequestData, hs, if_true] at h
        cases h
        rfl
      | false =>
        simp only [buildRequestData, hs, Bool.false_eq_true, if_false] at h
        cases hm : (nonzeroSeasonNumbers detail_data).max? with
        | none => rw [hm] at h; cases h
        | some m => rw [hm] at h; cases h; rfl

/-- C1: the claim quantifies over every TV detail with a non-empty
season list, but when every season number is 0 the build raises
`ValueError` at line 133 and no payload with a seasons field exists. -/
theorem C1_counterexample :
    c1detail0.seasons ≠ [] ∧
    buildRequestData .tv c1detail0 false = .error .valueError :=
  ⟨by decide, rfl⟩

/-- C1 (amended): for every TV detail whose season list is non-empty
and contains at least one non-zero season number, with
requestAllSeasons false the built payload has a seasons field that is
the single-element list holding the greatest non-zero season number. -/
theorem C1_latest_season (detail_data : DetailData)
    (hne : detail_data.seasons ≠ [])
    (hnz : nonzeroSeasonNumbers detail_data ≠ []) :
    ∃ p m, buildRequestData .tv detail_data false = .ok p ∧
      p.seasons = some (.seasonList [m]) ∧
      m ∈ nonzeroSeasonNumbers detail_data ∧
      ∀ x ∈ nonzeroSeasonNumbers detail_data, x ≤ m := by
  obtain ⟨m, hmax, hmem, hub⟩ := listMaxSpec hnz
  cases hs : detail_data.seasons with
  | nil => exact absurd hs hne
  | cons a as =>
    refine ⟨{ mediaType := .tv, mediaId := detail_data.id,
              imdbId := detail_data.externalIds.imdbId,
              tvdbId := tvdbIdField detail_data,
              seasons := some (.seasonList [m]) }, m, ?_, rfl, hmem, hub⟩
    simp [buildRequestData, hs, hmax]

/-- C1 witness: the amended claim instantiated on `c1detail`. -/
theorem C1_witness :
    ∃ p m, buildRequestData .tv c1detail false = .ok p ∧
      p.seasons = some (.seasonList [m]) ∧
      m ∈ nonzeroSeasonNumbers c1detail ∧
      ∀ x ∈ nonzeroSeasonNumbers c1detail, x ≤ m :=
  C1_latest_season c1detail (by decide) (by decide)

/-- C2: the claim says the build has no failure mode even when every
season number is 0, but there `max()` (line 133) raises `ValueError`. -/
theorem C2_counterexample :
    buildRequestData .tv c2detail0 false = .error .valueError := rfl

/-- C2 (amended): building the payload succeeds for every well-typed
input except exactly when the media type is tv, requestAllSeasons is
false, and the season list is non-empty with every season number 0. -/
theorem C2_build_total_iff (media_type : MediaType) (detail_data : DetailData)
    (request_all_seasons : Bool) :
    (∃ p, buildRequestData media_type detail_data request_all_seasons = .ok p) ↔
      ¬(media_type = .tv ∧ request_all_seasons = false ∧
        detail_data.seasons ≠ [] ∧ nonzeroSeasonNumbers detail_data = []) :=
  build_ok_iff media_type detail_data request_all_seasons

/-- C3: for every TV detail with a non-empty season list whose season
numbers are distinct (the data model assumes unique season numbers),
requesting all seasons yields a seasons list that excludes 0, contains
every other season number of the detail, contains nothing else, and
has no duplicates. -/
theorem C3_all_seasons (detail_data : DetailData)
    (hne : detail_data.seasons ≠ [])
    (hnd : (detail_data.seasons.map Season.seasonNumber).Nodup) :
    ∃ p L, buildRequestData .tv detail_data true = .ok p ∧
      p.seasons = some (.seasonList L) ∧
      (0 : Int) ∉ L ∧
      (∀ n ∈ detail_data.seasons.map Season.seasonNumber, n ≠ 0 → n ∈ L) ∧
      (∀ n ∈ L, n ∈ detail_data.seasons.map Season.seasonNumber) ∧
      L.Nodup := by
  obtain ⟨a, as, hs⟩ := List.exists_cons_of_ne_nil hne
  refine ⟨{ mediaType := .tv, mediaId := detail_data.id,
            imdbId := detail_data.externalIds.imdbId,
            tvdbId := tvdbIdField detail_data,
            seasons := some (.seasonList (nonzeroSeasonNumbers detail_data)) },
    nonzeroSeasonNumbers detail_data, ?_, rfl, ?_, ?_, ?_, ?_⟩
  · simp [buildRequestData, hs]
  · simp [nonzeroSeasonNumbers, List.mem_filter]
  · intro n hn hn0
    simp only [nonzeroSeasonNumbers, List.mem_filter]
    exact ⟨hn, by simpa using hn0⟩
  · intro n hn
    exact (List.mem_filter.mp hn).1
  · exact hnd.filter _

/-- C3 witness: the claim instantiated on `c3detail`. -/
theorem C3_witness :
    ∃ p L, buildRequestData .tv c3detail true = .ok p ∧
      p.seasons = some (.seasonList L) ∧
      (0 : Int) ∉ L ∧
      (∀ n ∈ c3detail.seasons.map Season.seasonNumber, n ≠ 0 → n ∈ L) ∧
      (∀ n ∈ L, n ∈ c3detail.seasons.map Season.seasonNumber) ∧
      L.Nodup :=
  C3_all_seasons c3detail (by decide) (by decide)

/-- C4: for every TV detail with an empty season list, the built
payload carries the string sentinel `"all"` in its seasons field,
whatever the all-seasons flag. -/
theorem C4_empty_seasons_sentinel (detail_data : DetailData)
    (request_all_seasons : Bool) (hempty : detail_data.seasons = []) :
    ∃ p, buildRequestData .tv detail_data request_all_seasons = .ok p ∧
      p.seasons = some .sentinelAll := by
  refine ⟨{ mediaType := .tv, mediaId := detail_data.id,
            imdbId := detail_data.externalIds.imdbId,
            tvdbId := tvdbIdField detail_data,
            seasons := some .sentinelAll }, ?_, rfl⟩
  simp [buildRequestData, hempty]

/-- C4 witness: the claim instantiated on `c4detail`, for both values
of the flag. -/
theorem C4_witness :
    (∃ p, buildRequestData .tv c4detail true = .ok p ∧
      p.seasons = some .sentinelAll) ∧
    (∃ p, buildRequestData .tv c4detail false = .ok p ∧
      p.seasons = some .sentinelAll) :=
  ⟨C4_empty_seasons_sentinel c4detail true (by decide),
   C4_empty_seasons_sentinel c4detail false (by decide)⟩

/-- C5: a payload built for a movie never carries a seasons field,
whatever the flag and whatever season metadata the detail holds. -/
theorem C5_movie_no_seasons_field (detail_data : DetailData)
    (request_all_seasons : Bool) :
    ∃ p, buildRequestData .movie detail_data request_all_seasons = .ok p ∧
      p.seasons = none :=
  ⟨_, rfl, rfl⟩

/-- C6: a tvdbId of 0 is present and numeric, yet the payload omits it,
because line 121 tests Python truthiness before the type. -/
theorem C6_counterexample :
    c6zero.externalIds.tvdbId = some (.vint 0) ∧
    isNumeric (.vint 0) = true ∧
    buildRequestData .movie c6zero false =
      .ok { mediaType := .movie, mediaId := 5, imdbId := none,
            tvdbId := none, seasons := none } :=
  ⟨rfl, rfl, rfl⟩

/-- C6 (amended): a built payload carries a tvdbId exactly when the
detail has a tvdbId that is numeric and truthy (non-zero); in that case
the value is the integer coercion.  Missing, non-numeric, or zero
values are omitted. -/
theorem C6_tvdbId_truthy_numeric (media_type : MediaType)
    (detail_data : DetailData) (request_all_seasons : Bool)
    (p : RequestPayload)
    (h : buildRequestData media_type detail_data request_all_seasons = .ok p) :
    (p.tvdbId ≠ none ↔
      ∃ v, detail_data.externalIds.tvdbId = some v ∧
        isNumeric v = true ∧ pyTruthy v = true) ∧
    ∀ v, detail_data.externalIds.tvdbId = some v → isNumeric v = true →
      pyTruthy v = true → p.tvdbId = some (pyIntOf v) := by
  have hp := build_tvdbId media_type detail_data request_all_seasons p h
  rw [hp]
  constructor
  · unfold tvdbIdField
    cases hv : detail_data.externalIds.tvdbId with
    | none => simp
    | some v =>
      by_cases htv : (pyTruthy v && isNumeric v) = true
      · obtain ⟨ht, hn⟩ := Bool.and_eq_true_iff.mp htv
        simp only [htv, if_true]
        exact ⟨fun _ => ⟨v, rfl, hn, ht⟩, fun _ => Option.some_ne_none _⟩
      · simp only [htv]
        constructor
        · intro hcon
          simp at hcon
        · rintro ⟨v2, hv2, hn2, ht2⟩
          cases hv2
          exact absurd (Bool.and_eq_true_iff.mpr ⟨ht2, hn2⟩) htv
  · intro v hv hn ht
    unfold tvdbIdField
    rw [hv]
    simp [hn, ht]

/-- A `getJson` error coming from a call that did not itself raise
carries the response text (only `raise_for_status` can have raised). -/
theorem getJson_error_responseText {α : Type} (hr : HttpResult α)
    (hnf : ∀ m, hr ≠ .fail m) {e : ReqExc} (he : getJson hr = .error e) :
    ∃ t, e.responseText = some t := by
  cases hr with
  | fail m => exact absurd rfl (hnf m)
  | success st b t =>
    simp only [getJson] at he
    by_cases hst : 400 ≤ st
    · rw [if_pos hst] at he
      cases he
      exact ⟨t, rfl⟩
    · rw [if_neg hst] at he
      cases he

/-- Same fact for the POST step. -/
theorem postStatus_error_responseText (hr : HttpResult Unit)
    (hnf : ∀ m, hr ≠ .fail m) {e : ReqExc} (he : postStatus hr = .error e) :
    ∃ t, e.responseText = some t := by
  cases hr with
  | fail m => exact absurd rfl (hnf m)
  | success st b t =>
    simp only [postStatus] at he
    by_cases hst : 400 ≤ st
    · rw [if_pos hst] at he
      cases he
      exact ⟨t, rfl⟩
    · rw [if_neg hst] at he
      cases he

/-- The except branch produces a spoken response whenever the caught
exception carries a response. -/
theorem handleCaught_ok {e : ReqExc} {t : String}
    (h : e.responseText = some t) : ∃ r, handleCaught e = .ok r := by
  unfold handleCaught
  rw [h]
  exact ⟨_, rfl⟩

/-- C6 witness: the amended claim instantiated on `c6detail` and its
movie payload. -/
theorem C6_witness :
    (c6payload.tvdbId ≠ none ↔
      ∃ v, c6detail.externalIds.tvdbId = some v ∧
        isNumeric v = true ∧ pyTruthy v = true) ∧
    ∀ v, c6detail.externalIds.tvdbId = some v → isNumeric v = true →
      pyTruthy v = true → c6payload.tvdbId = some (pyIntOf v) :=
  C6_tvdbId_truthy_numeric .movie c6detail false c6payload rfl

/-- C7: a `ValueError` raised while building the payload (line 133) is
not caught by the `except requests.exceptions.RequestException` clause
and escapes `lambda_handler` as an uncaught fault, refuting the claim
that every per-request error becomes a spoken response. -/
theorem C7_counterexample :
    lambda_handler c7event c7world = .error .valueError := rfl

/-- C7 (amended): the boundary converts to a spoken response every
error that is a requests exception carrying an upstream response; under
the extra assumptions that no call raises without a response and that
the build never reaches `max()` of an empty sequence, the handler
always returns a response.  (Without those assumptions the `ValueError`
of line 133 and the `AttributeError` of line 168 escape uncaught.) -/
theorem C7_boundary (event : Event) (w : World)
    (hs : ∀ m, w.search ≠ .fail m)
    (hd : ∀ m, w.detail ≠ .fail m)
    (hp : ∀ m, w.post ≠ .fail m)
    (hb : ∀ sd item rest dd,
      getJson w.search = .ok sd → sd.results = item :: rest →
      getJson w.detail = .ok dd →
      ¬(item.mediaType = .tv ∧ allSeasonsFlag event.intent.slots = false ∧
        dd.seasons ≠ [] ∧ nonzeroSeasonNumbers dd = [])) :
    ∃ r, lambda_handler event w = .ok r := by
  simp only [lambda_handler]
  split
  · exact ⟨_, rfl⟩
  · split
    · exact ⟨_, rfl⟩
    · cases hgs : getJson w.search with
      | error e =>
        dsimp only
        exact handleCaught_ok (getJson_error_responseText w.search hs hgs).choose_spec
      | ok sd =>
        dsimp only
        cases hres : sd.results with
        | nil => exact ⟨_, rfl⟩
        | cons item rest =>
          dsimp only
          cases hgd : getJson w.detail with
          | error e =>
            dsimp only
            exact handleCaught_ok (getJson_error_responseText w.detail hd hgd).choose_spec
          | ok dd =>
            dsimp only
            obtain ⟨p, hbp⟩ :=
              (build_ok_iff item.mediaType dd (allSeasonsFlag event.intent.slots)).mpr
                (hb sd item rest dd hgs hres hgd)
            rw [hbp]
            dsimp only
            cases hps : postStatus w.post with
            | error e =>
              dsimp only
              exact handleCaught_ok (postStatus_error_responseText w.post hp hps).choose_spec
            | ok status =>
              dsimp only
              split
              · split
                · split
                  · exact ⟨_, rfl⟩
                  · exact ⟨_, rfl⟩
                · exact ⟨_, rfl⟩
              · exact ⟨_, rfl⟩

/-- C7 witness: the amended claim instantiated on `c7okEvent` and
`c7okWorld`. -/
theorem C7_witness : ∃ r, lambda_handler c7okEvent c7okWorld = .ok r :=
  C7_boundary c7okEvent c7okWorld
    (by intro m h; simp [c7okWorld] at h)
    (by intro m h; simp [c7okWorld] at h)
    (by intro m h; simp [c7okWorld] at h)
    (by
      intro sd item rest dd h1 h2 h3
      simp [c7okWorld, getJson] at h3)

/-- C8: whenever the pipeline reaches the submission and the POST comes
back with a non-raising status other than 201, the spoken text is
exactly the generic rejection sentence; the upstream body `txt` does
not appear in it. -/
theorem C8_rejection (event : Event) (w : World) (sd : SearchData)
    (item : SearchItem) (rest : List SearchItem) (dd : DetailData)
    (p : RequestPayload) (st : Nat) (txt : String)
    (h0 : event.requestType = "IntentRequest")
    (h1 : (slotValue event.intent.slots "MediaTitle").getD "" ≠ "")
    (h2 : getJson w.search = .ok sd)
    (h3 : sd.results = item :: rest)
    (h4 : getJson w.detail = .ok dd)
    (h5 : buildRequestData item.mediaType dd (allSeasonsFlag event.intent.slots) = .ok p)
    (h6 : w.post = .success st () txt)
    (h7 : st < 400) (h8 : st ≠ 201) :
    lambda_handler event w =
      .ok (build_response ("I couldn\x27t add your request. Please check the details and try again.")) := by
  have hps : postStatus w.post = .ok st := by
    rw [h6]
    simp [postStatus, Nat.not_le.mpr h7]
  have hno : (st == 201) = false := by
    simp [h8]
  simp only [lambda_handler, h0, h2, h3, h4, h5, hps, hno, bne_self_eq_false,
    Bool.false_eq_true, if_false]
  rw [if_neg (by simpa using h1)]

/-- C8 witness: the claim instantiated end to end on `c8world`. -/
theorem C8_witness :
    lambda_handler c8event c8world =
      .ok (build_response ("I couldn\x27t add your request. Please check the details and try again.")) :=
  C8_rejection c8event c8world c8sd { id := 3, mediaType := .movie } [] c8dd
    c8p 200 ("upstream raw body") rfl (by decide) rfl rfl rfl rfl rfl
    (by decide) (by decide)

/-- C9: the transmitted `query` value is the title percent-encoded
twice, not once: line 73 pre-quotes the title and `requests` encodes
the parameter again, so a space becomes `%2520` rather than `%20`.
`page` and `language` are transmitted as claimed. -/
theorem C9_double_encoded :
    searchQueryString ("The Wire") = "query=The%2520Wire&page=1&language=en" ∧
    pyQuote ("The Wire") = "The%20Wire" ∧
    transmittedSearchQuery ("The Wire") ≠ pyQuote ("The Wire") :=
  ⟨rfl, rfl, by decide⟩

/-- C10: the all-seasons flag is true exactly when the `all` slot is
present with a value whose lower-casing is the string `true`; a missing
slot or missing value falls back to `"false"` and any other string
compares unequal, so the flag is false. -/
theorem C10_all_flag_iff (slots : List (String × SlotVal)) :
    allSeasonsFlag slots = true ↔
      ∃ v, slotValue slots "all" = some v ∧ pyLower v = "true" := by
  unfold allSeasonsFlag
  cases hv : slotValue slots "all" with
  | none =>
    simp only [hv, Option.getD_none]
    constructor
    · intro h
      exact absurd h (by decide)
    · rintro ⟨v, h2, _⟩
      cases h2
  | some v =>
    simp only [hv, Option.getD_some]
    constructor
    · intro h
      exact ⟨v, rfl, eq_of_beq h⟩
    · rintro ⟨v2, hv2, hl⟩
      cases hv2
      simp [hl]
